import Mathlib

/-!
# Verification of the midrasai client facade (`midrasai/client/main.py`)

Shallow embedding of the client library's core: the document-embedding
batching pipeline (`embed_pdf`), the single-batch embedding operations
(`embed_images`, `embed_queries` / `embed_text`), response validation
(`validate_response`), and the compound `query` / `query_text` operations.

External collaborators are modelled as oracles:
* PDF rasterization (`convert_from_path`) produces an ordered list of pages;
  we take that list directly as input, parametric in the page type `Image`.
* The HTTP transport (`httpx` client `post`) is a function from an endpoint
  path and a request payload to an `HttpResponse`.
* The per-chunk embedding call inside the batching loop of the async facade
  is a function from a list of pages to a response (in the `Except` monad,
  since validation can raise). The sync facade's loop is modelled separately
  (`Midras.embed_pdf`): its `embed_images` returns the raw parsed dict
  (`response.json()`), so the loop body's `response.embeddings` attribute
  access raises `AttributeError` on the first iteration.

Types from `midrasai.types` (pydantic models `MidrasRequest`,
`MidrasResponse`, `ColBERT`) are not part of the analysed sources; they are
modelled from the spec's data model (section 3).
-/

namespace Midrasai

/-- Modelled from the spec: a ColBERT-style multi-vector embedding, "an
ordered sequence of fixed-dimension numeric vectors representing one encoded
unit". Numeric entries are modelled as integers. -/
abbrev ColBERT := List (List Int)

/-- Modelled from the spec: the pydantic model `MidrasResponse` from
`midrasai.types` — `{ credits_spent : non-negative integer, embeddings :
ordered sequence of Embedding, images : optional ordered sequence of raw
rasterized pages }`. `credits_spent` is a `Nat` because the spec types it as
a non-negative integer. Parametric in the page type `Image`. -/
structure MidrasResponse (Image : Type) where
  credits_spent : Nat
  embeddings : List ColBERT
  images : Option (List Image)
deriving Repr, DecidableEq

/-- Modelled from the spec: the outbound request payload `MidrasRequest` from
`midrasai.types` — `{ credential, mode, payload: images XOR queries }`.
Images are carried base64-encoded, so as strings. -/
structure MidrasRequest where
  key : String
  mode : String
  base64images : Option (List String)
  queries : Option (List String)
deriving Repr, DecidableEq

/-- The parsed JSON body of a transport response, recording which of the
fields expected by `MidrasResponse` are present. A missing field is `none`. -/
structure Body (Image : Type) where
  credits_spent : Option Int
  embeddings : Option (List ColBERT)
  images : Option (List Image)
deriving Repr, DecidableEq

/-- A transport-level HTTP response: status code, raw text, parsed JSON body. -/
structure HttpResponse (Image : Type) where
  status : Nat
  text : String
  body : Body Image
deriving Repr, DecidableEq

/-- The errors the embedded code can raise.
* `valueError` — raised by `AsyncMidras.validate_response` on status ≥ 500,
  carrying the raw response text (`raise ValueError(response.text)`).
* `validationError` — pydantic's error when `MidrasResponse(**json)` is
  applied to a body missing a required field or of the wrong shape.
* `rangeError` — Python's `ValueError: range() arg 3 must not be zero`,
  raised by `range(0, n, 0)` in the batching loop.
* `indexError` — Python's `IndexError` from `embeddings[0]` on an empty list.
* `attributeError attr` — Python's `AttributeError`: the synchronous
  facade's `embed_images`/`embed_queries` return `response.json()`, a plain
  dict, and a dict has no `embeddings` or `credits_spent` attribute, so the
  callers' `response.embeddings` / `.embeddings[0]` accesses raise this,
  whatever keys the dict holds. -/
inductive MidrasError where
  | valueError (text : String)
  | validationError
  | rangeError
  | indexError
  | attributeError (attr : String)
deriving Repr, DecidableEq

/-- The transport oracle: `post endpoint payload` is the remote service's
response; models `self.client.post(url, json=request.model_dump(), timeout=180)`. -/
abbrev Post (Image : Type) := String → MidrasRequest → HttpResponse Image

/-- Modelled from the spec: construction of the pydantic `MidrasResponse`
from a parsed JSON body (`MidrasResponse(**response.json())`), "failing with
`MalformedResponseError` if required fields are absent or of the wrong
shape". A negative `credits_spent` is the wrong shape for a non-negative
integer field. -/
def parseMidrasResponse {Image : Type} (b : Body Image) :
    Except MidrasError (MidrasResponse Image) :=
  match b.credits_spent, b.embeddings with
  | some c, some es =>
      if 0 ≤ c then .ok ⟨c.toNat, es, b.images⟩ else .error .validationError
  | _, _ => .error .validationError

/-- `AsyncMidras.validate_response`: raise `ValueError(response.text)` when
`response.status_code >= 500`, otherwise `MidrasResponse(**response.json())`. -/
def validate_response {Image : Type} (r : HttpResponse Image) :
    Except MidrasError (MidrasResponse Image) :=
  if 500 ≤ r.status then .error (.valueError r.text)
  else parseMidrasResponse r.body

/-- The contiguous chunks that the loop
`for i in range(0, len(images), batch_size): images[i : i + batch_size]`
iterates over, for a positive step; the chunk size is `bsPred + 1`.
`images[i : i + b] = (images.drop i).take b`, and advancing `i` by `b`
amounts to recursing on `images.drop b`. -/
def chunkSlices {α : Type} (bsPred : Nat) : List α → List (List α)
  | [] => []
  | x :: xs => (x :: xs).take (bsPred + 1) :: chunkSlices bsPred (xs.drop bsPred)
termination_by xs => xs.length
decreasing_by simp; omega

/-- The body of the batching loop of `embed_pdf` with the per-chunk
embedding operation abstracted as `f`: call `f` on each chunk in order,
extend the accumulated `embeddings` with each response's embeddings, and
add each response's `credits_spent` to the running total; a raised error
aborts the loop. The chunk size is `bsPred + 1`. Instantiating `f` with the
validated `AsyncMidras.embed_images` gives the async facade's loop; the
sync facade's loop body instead dies on dict attribute access and is
modelled by `Midras.embedChunks` below. -/
def embedChunks {Image : Type}
    (f : List Image → Except MidrasError (MidrasResponse Image))
    (bsPred : Nat) : List Image → Except MidrasError (List ColBERT × Nat)
  | [] => .ok ([], 0)
  | x :: xs =>
    match f ((x :: xs).take (bsPred + 1)) with
    | .error e => .error e
    | .ok r =>
      match embedChunks f bsPred (xs.drop bsPred) with
      | .error e => .error e
      | .ok (es, total) => .ok (r.embeddings ++ es, r.credits_spent + total)
termination_by xs => xs.length
decreasing_by simp; omega

/-- The batching pipeline of `embed_pdf` with the per-chunk embedding call
abstracted as `f`: `images` is the rasterization
`convert_from_path(pdf_path)`. The loop
`for i in range(0, len(images), batch_size)`:
* raises `ValueError` when `batch_size = 0` (`range` rejects a zero step);
* never executes when `batch_size < 0` (`range(0, n, step)` with a negative
  step and `n ≥ 0` is empty), so the accumulators keep their initial values;
* otherwise walks the chunks of size `batch_size`.
The result carries `images if include_images else None`. With `f` the
validated `AsyncMidras.embed_images`, this is exactly
`AsyncMidras.embed_pdf`. `Midras.embed_pdf` shares only the loop-skipping
paths (zero/negative step, zero pages), which contain no attribute access;
its loop body crashes and is modelled faithfully below. -/
def embed_pdf {Image : Type}
    (f : List Image → Except MidrasError (MidrasResponse Image))
    (images : List Image) (batch_size : Int) (include_images : Bool) :
    Except MidrasError (MidrasResponse Image) :=
  if batch_size = 0 then .error .rangeError
  else if batch_size < 0 then
    .ok ⟨0, [], if include_images then some images else none⟩
  else
    match embedChunks f (batch_size.toNat - 1) images with
    | .error e => .error e
    | .ok (es, total) =>
        .ok ⟨total, es, if include_images then some images else none⟩

/-- `Midras.embed_images` (synchronous facade): build the request with the
base64-encoded images, post it to `/embed/images`, and return
`response.json()` — the raw parsed body, with no validation of any kind.
`enc` models `base64_encode_image_list` element-wise (an order-preserving
encoding of each page). -/
def Midras.embed_images {Image : Type} (post : Post Image) (api_key : String)
    (enc : Image → String) (pil_images : List Image) (mode : String) :
    Body Image :=
  (post "/embed/images" ⟨api_key, mode, some (pil_images.map enc), none⟩).body

/-- `Midras.embed_queries` (synchronous facade): post the queries payload to
`/embed/queries` and return `response.json()` — again unvalidated. -/
def Midras.embed_queries {Image : Type} (post : Post Image) (api_key : String)
    (texts : List String) (mode : String) : Body Image :=
  (post "/embed/queries" ⟨api_key, mode, none, some texts⟩).body

/-- The synchronous batching loop `for i in range(0, len(images),
batch_size)` of `Midras.embed_pdf`, modelled faithfully: the first
iteration issues one request through `Midras.embed_images` — which returns
the raw parsed dict (`response.json()`) — and then the loop body's
`response.embeddings` attribute access raises `AttributeError`: a Python
dict has no `embeddings` attribute, whatever keys it holds. So the loop
never completes an iteration on a non-empty page list. -/
def Midras.embedChunks {Image : Type} (post : Post Image) (api_key : String)
    (enc : Image → String) (bsPred : Nat) :
    List Image → Except MidrasError (List ColBERT × Nat)
  | [] => .ok ([], 0)
  | x :: xs =>
    let _response :=
      Midras.embed_images post api_key enc ((x :: xs).take (bsPred + 1)) "standard"
    .error (.attributeError "embeddings")

/-- `Midras.embed_pdf` (synchronous facade), including the dynamic-typing
failure of its loop body: the loop-skipping paths (`batch_size = 0` raises
the range error; `batch_size < 0` and a zero-page rasterization never enter
the loop) behave as in the abstract pipeline, and any executed iteration
crashes with `AttributeError` via `Midras.embedChunks`. -/
def Midras.embed_pdf {Image : Type} (post : Post Image) (api_key : String)
    (enc : Image → String) (images : List Image) (batch_size : Int)
    (include_images : Bool) : Except MidrasError (MidrasResponse Image) :=
  if batch_size = 0 then .error .rangeError
  else if batch_size < 0 then
    .ok ⟨0, [], if include_images then some images else none⟩
  else
    match Midras.embedChunks post api_key enc (batch_size.toNat - 1) images with
    | .error e => .error e
    | .ok (es, total) =>
        .ok ⟨total, es, if include_images then some images else none⟩

/-- `AsyncMidras.embed_images`: same request to `/embed/images`, but the
response goes through `self.validate_response`. -/
def AsyncMidras.embed_images {Image : Type} (post : Post Image)
    (api_key : String) (enc : Image → String) (pil_images : List Image)
    (mode : String) : Except MidrasError (MidrasResponse Image) :=
  validate_response (post "/embed/images" ⟨api_key, mode, some (pil_images.map enc), none⟩)

/-- `AsyncMidras.embed_pdf`: the batching pipeline whose per-chunk call is
`await self.embed_images(image_batch)` — the validated async embedding
operation, with the default mode `"standard"`. -/
def AsyncMidras.embed_pdf {Image : Type} (post : Post Image)
    (api_key : String) (enc : Image → String) (images : List Image)
    (batch_size : Int) (include_images : Bool) :
    Except MidrasError (MidrasResponse Image) :=
  Midrasai.embed_pdf
    (fun batch => AsyncMidras.embed_images post api_key enc batch "standard")
    images batch_size include_images

/-- `AsyncMidras.embed_text`: posts the queries payload to `""` (the bare
base URL — not `/embed/queries`), then validates the response. -/
def AsyncMidras.embed_text {Image : Type} (post : Post Image)
    (api_key : String) (texts : List String) (mode : String) :
    Except MidrasError (MidrasResponse Image) :=
  validate_response (post "" ⟨api_key, mode, none, some texts⟩)

/-- `Midras.query`: `query_vector = self.embed_queries([query]).embeddings[0]`
then `self.index.search(index, query_vector, quantity)` — modelled
faithfully: `self.embed_queries([query])` is the raw parsed dict
(`response.json()`), so the `.embeddings` attribute access raises
`AttributeError` unconditionally, before any `[0]` indexing and regardless
of what the service answered. The vector store's `search` is an oracle
returning an abstract result type `β`; it is never reached. -/
def Midras.query {Image β : Type} (post : Post Image) (api_key : String)
    (search : String → ColBERT → Int → β) (index : String) (q : String)
    (quantity : Int) : Except MidrasError β :=
  let _response := Midras.embed_queries post api_key [q] "standard"
  .error (.attributeError "embeddings")

/-- `AsyncMidras.query_text`:
`query_vector = (await self.embed_text([query])).embeddings[0]` then
`await self.index.search(...)`. The text-embedding call is abstracted as the
oracle `embedT`, which may itself raise (its validation); the unguarded
`[0]` raises `IndexError` on an empty `embeddings`. -/
def AsyncMidras.query_text {Image β : Type}
    (embedT : List String → Except MidrasError (MidrasResponse Image))
    (search : String → ColBERT → Int → β) (index : String) (q : String)
    (quantity : Int) : Except MidrasError β :=
  match embedT [q] with
  | .error e => .error e
  | .ok resp =>
    match resp.embeddings with
    | [] => .error .indexError
    | v :: _ => .ok (search index v quantity)

/-! ## Concrete oracles used in closed evaluations -/

/-- A concrete per-chunk response: one credit per chunk, one single-vector
embedding per page (`Image := Nat`). -/
def pageResp (c : List Nat) : MidrasResponse Nat :=
  ⟨1, c.map (fun p => [[(p : Int)]]), none⟩

/-- A per-chunk operation that fails exactly on single-page chunks. -/
def failSecond (c : List Nat) : Except MidrasError (MidrasResponse Nat) :=
  if c.length = 1 then .error (.valueError "chunk failed") else .ok (pageResp c)

/-- A transport that always answers 200 with a zero-credit empty body. -/
def constPost : Post Nat :=
  fun _ _ => ⟨200, "ok", ⟨some 0, some [], none⟩⟩

/-- A transport that always answers 500. -/
def failPost : Post Nat :=
  fun _ _ => ⟨500, "server error", ⟨some 0, some [], none⟩⟩

/-- A transport whose answer reveals which endpoint was hit: it reports the
length of the endpoint path as `credits_spent`. -/
def lenPost : Post Nat :=
  fun url _ => ⟨200, url, ⟨some (url.length : Int), some [], none⟩⟩

/-- The response every request validates to against `constPost`. -/
def zeroResp : List Nat → MidrasResponse Nat :=
  fun _ => ⟨0, [], none⟩

/-- A text-embedding oracle answering an empty embeddings sequence, in the
async (fallible) shape. -/
def emptyEmbedT : List String → Except MidrasError (MidrasResponse Nat) :=
  fun _ => .ok ⟨0, [], none⟩

/-- A trivial vector-store search oracle. -/
def searchZero : String → ColBERT → Int → Nat :=
  fun _ _ _ => 0

/-! ## Helper lemmas about the chunking loop -/

theorem chunkSlices_nil {α : Type} (bsPred : Nat) :
    chunkSlices bsPred ([] : List α) = [] := by
  rw [chunkSlices]

theorem chunkSlices_cons {α : Type} (bsPred : Nat) (x : α) (xs : List α) :
    chunkSlices bsPred (x :: xs) =
      (x :: xs).take (bsPred + 1) :: chunkSlices bsPred (xs.drop bsPred) := by
  rw [chunkSlices]

/-- Concatenating the chunks gives back the input: the loop's slices
partition the pages contiguously in original order. -/
theorem chunkSlices_flatten {α : Type} (bsPred : Nat) (xs : List α) :
    (chunkSlices bsPred xs).flatten = xs := by
  induction xs using chunkSlices.induct bsPred with
  | case1 => rw [chunkSlices_nil]; rfl
  | case2 x xs ih =>
    rw [chunkSlices_cons, List.flatten_cons, ih]
    have h := List.take_append_drop (bsPred + 1) (x :: xs)
    rwa [List.drop_succ_cons] at h

/-- The number of chunks is the ceiling `⌈n / b⌉ = (n + b - 1) / b` with
`b = bsPred + 1`. -/
theorem chunkSlices_length {α : Type} (bsPred : Nat) (xs : List α) :
    (chunkSlices bsPred xs).length = (xs.length + bsPred) / (bsPred + 1) := by
  induction xs using chunkSlices.induct bsPred with
  | case1 =>
    rw [chunkSlices_nil]
    simp [Nat.div_eq_of_lt (Nat.lt_succ_self bsPred)]
  | case2 x xs ih =>
    rw [chunkSlices_cons]
    simp only [List.length_cons, ih, List.length_drop]
    by_cases h : bsPred ≤ xs.length
    · have h1 : xs.length - bsPred + bsPred = xs.length := by omega
      have h2 : xs.length + 1 + bsPred = xs.length + (bsPred + 1) := by omega
      rw [h1, h2, Nat.add_div_right _ (Nat.succ_pos bsPred)]
    · have h1 : xs.length - bsPred = 0 := by omega
      have e1 : bsPred / (bsPred + 1) = 0 :=
        Nat.div_eq_of_lt (Nat.lt_succ_self bsPred)
      have e2 : (xs.length + 1 + bsPred) / (bsPred + 1) = 1 :=
        Nat.div_eq_of_lt_le (by omega) (by omega)
      rw [h1, Nat.zero_add, e1, e2]

/-- The chunk sizes: `n / b` full chunks of size `b = bsPred + 1`, then a
final chunk of size `n % b` when `b` does not divide `n`. -/
theorem chunkSlices_map_length {α : Type} (bsPred : Nat) (xs : List α) :
    (chunkSlices bsPred xs).map List.length =
      List.replicate (xs.length / (bsPred + 1)) (bsPred + 1) ++
        (if xs.length % (bsPred + 1) = 0 then []
         else [xs.length % (bsPred + 1)]) := by
  induction xs using chunkSlices.induct bsPred with
  | case1 => rw [chunkSlices_nil]; simp
  | case2 x xs ih =>
    rw [chunkSlices_cons, List.map_cons, ih]
    simp only [List.length_take, List.length_cons, List.length_drop]
    by_cases h : bsPred ≤ xs.length
    · have hle : bsPred + 1 ≤ xs.length + 1 := by omega
      have hmin : min (bsPred + 1) (xs.length + 1) = bsPred + 1 := by omega
      have hsub : xs.length + 1 - (bsPred + 1) = xs.length - bsPred := by omega
      have hd : (xs.length + 1) / (bsPred + 1) =
          (xs.length - bsPred) / (bsPred + 1) + 1 := by
        rw [Nat.div_eq_sub_div (Nat.succ_pos bsPred) hle, hsub]
      have hm : (xs.length + 1) % (bsPred + 1) =
          (xs.length - bsPred) % (bsPred + 1) := by
        rw [Nat.mod_eq_sub_mod hle, hsub]
      rw [hmin, hd, hm, List.replicate_succ, List.cons_append]
    · have h0 : xs.length - bsPred = 0 := by omega
      have hmin : min (bsPred + 1) (xs.length + 1) = xs.length + 1 := by omega
      have hdiv : (xs.length + 1) / (bsPred + 1) = 0 :=
        Nat.div_eq_of_lt (by omega)
      have hmod : (xs.length + 1) % (bsPred + 1) = xs.length + 1 :=
        Nat.mod_eq_of_lt (by omega)
      rw [h0, hmin, hdiv, hmod]
      simp

theorem embedChunks_nil {Image : Type}
    (f : List Image → Except MidrasError (MidrasResponse Image)) (bsPred : Nat) :
    embedChunks f bsPred [] = .ok ([], 0) := by
  rw [embedChunks]

theorem embedChunks_cons {Image : Type}
    (f : List Image → Except MidrasError (MidrasResponse Image)) (bsPred : Nat)
    (x : Image) (xs : List Image) :
    embedChunks f bsPred (x :: xs) =
      match f ((x :: xs).take (bsPred + 1)) with
      | .error e => .error e
      | .ok r =>
        match embedChunks f bsPred (xs.drop bsPred) with
        | .error e => .error e
        | .ok (es, total) => .ok (r.embeddings ++ es, r.credits_spent + total) := by
  rw [embedChunks]

/-- When every chunk request succeeds, the loop returns the concatenation of
the per-chunk embeddings (in chunk order) and the sum of the per-chunk
credits. -/
theorem embedChunks_ok {Image : Type} (resp : List Image → MidrasResponse Image)
    (bsPred : Nat) (xs : List Image) :
    embedChunks (fun c => .ok (resp c)) bsPred xs =
      .ok (((chunkSlices bsPred xs).map (fun c => (resp c).embeddings)).flatten,
        ((chunkSlices bsPred xs).map (fun c => (resp c).credits_spent)).sum) := by
  induction xs using chunkSlices.induct bsPred with
  | case1 => rw [embedChunks_nil, chunkSlices_nil]; rfl
  | case2 x xs ih =>
    rw [embedChunks_cons, chunkSlices_cons, ih]
    simp [List.sum_cons]

/-- If the loop completed without raising, every chunk's request succeeded:
a successful aggregate can only come from all-successful chunks. -/
theorem embedChunks_ok_all {Image : Type}
    (f : List Image → Except MidrasError (MidrasResponse Image)) (bsPred : Nat)
    (xs : List Image) (p : List ColBERT × Nat)
    (hok : embedChunks f bsPred xs = .ok p) :
    ∀ c ∈ chunkSlices bsPred xs, ∃ r, f c = .ok r := by
  induction xs using chunkSlices.induct bsPred generalizing p with
  | case1 => rw [chunkSlices_nil]; intro c hc; cases hc
  | case2 x xs ih =>
    rw [chunkSlices_cons]
    rw [embedChunks_cons] at hok
    intro c hc
    rcases List.mem_cons.mp hc with hc | hc
    · subst hc
      cases hf : f ((x :: xs).take (bsPred + 1)) with
      | error e => rw [hf] at hok; cases hok
      | ok r => exact ⟨r, rfl⟩
    · cases hf : f ((x :: xs).take (bsPred + 1)) with
      | error e => rw [hf] at hok; cases hok
      | ok r =>
        rw [hf] at hok
        cases hrec : embedChunks f bsPred (xs.drop bsPred) with
        | error e => rw [hrec] at hok; cases hok
        | ok q => exact ih q hrec c hc

/-- The loop only ever calls the per-chunk operation on the slices of the
partition: two operations agreeing on every chunk give the same result. -/
theorem embedChunks_congr {Image : Type}
    (f g : List Image → Except MidrasError (MidrasResponse Image))
    (bsPred : Nat) (xs : List Image)
    (h : ∀ c ∈ chunkSlices bsPred xs, f c = g c) :
    embedChunks f bsPred xs = embedChunks g bsPred xs := by
  induction xs using chunkSlices.induct bsPred with
  | case1 => rw [embedChunks_nil, embedChunks_nil]
  | case2 x xs ih =>
    rw [embedChunks_cons, embedChunks_cons,
      h _ (by rw [chunkSlices_cons]; exact List.mem_cons_self _ _),
      ih (fun c hc => h c (by rw [chunkSlices_cons]; exact List.mem_cons_of_mem _ hc))]

/-- The same congruence lifted to the whole pipeline. -/
theorem embed_pdf_congr {Image : Type}
    (f g : List Image → Except MidrasError (MidrasResponse Image))
    (images : List Image) (batch_size : Int) (include_images : Bool)
    (h : ∀ c ∈ chunkSlices (batch_size.toNat - 1) images, f c = g c) :
    embed_pdf f images batch_size include_images =
      embed_pdf g images batch_size include_images := by
  rw [embed_pdf, embed_pdf, embedChunks_congr f g _ _ h]

/-- Shared evaluation of the pipeline when every chunk request succeeds with
the responses given by `resp` and the batch size is positive. -/
theorem embed_pdf_ok_eq {Image : Type}
    (resp : List Image → MidrasResponse Image) (images : List Image)
    (batch_size : Int) (hb : 1 ≤ batch_size) (include_images : Bool) :
    embed_pdf (fun c => .ok (resp c)) images batch_size include_images =
      .ok ⟨((chunkSlices (batch_size.toNat - 1) images).map
              (fun c => (resp c).credits_spent)).sum,
           ((chunkSlices (batch_size.toNat - 1) images).map
              (fun c => (resp c).embeddings)).flatten,
           if include_images then some images else none⟩ := by
  have h1 : ¬(batch_size = 0) := by omega
  have h2 : ¬(batch_size < 0) := by omega
  rw [embed_pdf, if_neg h1, if_neg h2, embedChunks_ok]

/-! ## Claim theorems -/

/-- Claim C1 counterexample: on the synchronous facade, a 23-page document
with `batch_size = 10` does not yield 3 requests and 23 embeddings in
order: the first chunk's `response.embeddings` attribute access on the raw
dict returned by `embed_images` raises `AttributeError`, so
`Midras.embed_pdf` fails after its first request and never returns an
embeddings sequence. -/
theorem sync_embed_pdf_crashes :
    Midras.embed_pdf constPost "k" (fun p => toString p) (List.range 23) 10
        false
      = .error (.attributeError "embeddings") := rfl

/-- Claim C1 amended: for every rasterized page list and every
`batch_size ≥ 1`, the pipeline partitions the pages into contiguous chunks,
in original order (their concatenation is the original page list), of sizes
`batch_size, …, batch_size, n % batch_size` — so at most `batch_size` each,
with only the final chunk possibly smaller — issuing exactly
`⌈n / batch_size⌉ = (n + batch_size - 1) / batch_size` chunk requests; on
the ASYNC facade, when every chunk response validates, the returned
embeddings sequence is the concatenation, in original chunk order, of the
chunk responses' embeddings; the SYNC facade instead raises
`AttributeError` while processing its first chunk's response (its
`embed_images` returns the raw parsed dict) for every non-empty document,
so it never returns an embeddings sequence. -/
theorem embed_pdf_batching {Image : Type} (post : Post Image)
    (api_key : String) (enc : Image → String)
    (resp : List Image → MidrasResponse Image) (images : List Image)
    (batch_size : Int) (hb : 1 ≤ batch_size) (include_images : Bool)
    (hval : ∀ c ∈ chunkSlices (batch_size.toNat - 1) images,
      AsyncMidras.embed_images post api_key enc c "standard" = .ok (resp c)) :
    (chunkSlices (batch_size.toNat - 1) images).flatten = images ∧
    (chunkSlices (batch_size.toNat - 1) images).length =
      (images.length + batch_size.toNat - 1) / batch_size.toNat ∧
    (chunkSlices (batch_size.toNat - 1) images).map List.length =
      List.replicate (images.length / batch_size.toNat) batch_size.toNat ++
        (if images.length % batch_size.toNat = 0 then []
         else [images.length % batch_size.toNat]) ∧
    AsyncMidras.embed_pdf post api_key enc images batch_size include_images =
      .ok ⟨((chunkSlices (batch_size.toNat - 1) images).map
              (fun c => (resp c).credits_spent)).sum,
           ((chunkSlices (batch_size.toNat - 1) images).map
              (fun c => (resp c).embeddings)).flatten,
           if include_images then some images else none⟩ ∧
    (images ≠ [] →
      Midras.embed_pdf post api_key enc images batch_size include_images =
        .error (.attributeError "embeddings")) := by
  have ht : batch_size.toNat - 1 + 1 = batch_size.toNat := by omega
  have h1 : ¬(batch_size = 0) := by omega
  have h2 : ¬(batch_size < 0) := by omega
  refine ⟨chunkSlices_flatten _ _, ?_, ?_, ?_, ?_⟩
  · rw [chunkSlices_length, ht]
    congr 1
    omega
  · rw [chunkSlices_map_length, ht]
  · rw [AsyncMidras.embed_pdf,
      embed_pdf_congr _ (fun c => .ok (resp c)) images batch_size
        include_images hval,
      embed_pdf_ok_eq resp images batch_size hb include_images]
  · intro hne
    cases images with
    | nil => exact absurd rfl hne
    | cons x xs =>
      rw [Midras.embed_pdf, if_neg h1, if_neg h2]
      rfl

/-- Claim C4: when every chunk request succeeds, `embed_pdf` returns a response
whose `credits_spent` is exactly the sum of the per-chunk `credits_spent`,
and that aggregate is non-negative. -/
theorem embed_pdf_credits {Image : Type}
    (resp : List Image → MidrasResponse Image) (images : List Image)
    (batch_size : Int) (hb : 1 ≤ batch_size) (include_images : Bool) :
    ∃ r, embed_pdf (fun c => .ok (resp c)) images batch_size include_images
        = .ok r ∧
      r.credits_spent =
        ((chunkSlices (batch_size.toNat - 1) images).map
          (fun c => (resp c).credits_spent)).sum ∧
      0 ≤ r.credits_spent :=
  ⟨_, embed_pdf_ok_eq resp images batch_size hb include_images, rfl,
    Nat.zero_le _⟩

/-- Claim C7: if any chunk's embedding request fails, the whole `embed_pdf` call
raises: no partially aggregated response is returned to the caller. -/
theorem embed_pdf_aborts {Image : Type}
    (f : List Image → Except MidrasError (MidrasResponse Image))
    (images : List Image) (batch_size : Int) (hb : 1 ≤ batch_size)
    (include_images : Bool) (c : List Image)
    (hc : c ∈ chunkSlices (batch_size.toNat - 1) images) (e : MidrasError)
    (hfail : f c = .error e) :
    ∃ e2, embed_pdf f images batch_size include_images = .error e2 := by
  have h1 : ¬(batch_size = 0) := by omega
  have h2 : ¬(batch_size < 0) := by omega
  rw [embed_pdf, if_neg h1, if_neg h2]
  cases hch : embedChunks f (batch_size.toNat - 1) images with
  | error e3 => exact ⟨e3, rfl⟩
  | ok p =>
    obtain ⟨r, hr⟩ := embedChunks_ok_all f _ images p hch c hc
    rw [hfail] at hr
    cases hr

/-- Claim C8: whenever `embed_pdf` returns a response, its `images` field is the
original rasterized page list, in original order, when `include_images` was
requested, and is absent (`none`, not merely empty) otherwise. -/
theorem embed_pdf_images_field {Image : Type}
    (f : List Image → Except MidrasError (MidrasResponse Image))
    (images : List Image) (batch_size : Int) (include_images : Bool)
    (r : MidrasResponse Image)
    (h : embed_pdf f images batch_size include_images = .ok r) :
    r.images = if include_images then some images else none := by
  rw [embed_pdf] at h
  by_cases h1 : batch_size = 0
  · rw [if_pos h1] at h; cases h
  · rw [if_neg h1] at h
    by_cases h2 : batch_size < 0
    · rw [if_pos h2] at h
      obtain rfl := Except.ok.inj h
      rfl
    · rw [if_neg h2] at h
      cases hch : embedChunks f (batch_size.toNat - 1) images with
      | error e => rw [hch] at h; cases h
      | ok p =>
        rw [hch] at h
        obtain ⟨es, total⟩ := p
        obtain rfl := Except.ok.inj h
        rfl

/-- Claim C10: for every negative `batch_size`, the loop
`for i in range(0, len(images), batch_size)` never executes — no embedding
request is issued at all (the result is the same for every per-chunk
operation `f`) — and `embed_pdf` returns `credits_spent = 0` and an empty
embeddings sequence, raising no error. -/
theorem embed_pdf_negative_batch {Image : Type}
    (f : List Image → Except MidrasError (MidrasResponse Image))
    (images : List Image) (batch_size : Int) (hb : batch_size < 0)
    (include_images : Bool) :
    embed_pdf f images batch_size include_images =
      .ok ⟨0, [], if include_images then some images else none⟩ := by
  have h1 : ¬(batch_size = 0) := by omega
  rw [embed_pdf, if_neg h1, if_pos hb]

/-- Claim C5 counterexample: with `batch_size = -1 ≤ 0` and a one-page document,
`embed_pdf` does not fail at all — no `InvalidConfigurationError` (or any
error) is raised; it silently returns an empty zero-credit response. -/
theorem embed_pdf_nonpos_no_error :
    embed_pdf (fun c => .ok (pageResp c)) [0] (-1) false = .ok ⟨0, [], none⟩ := by
  rw [embed_pdf, if_neg (by omega), if_pos (by omega)]
  rfl

/-- Claim C5 amended: `batch_size = 0` raises Python's untyped `ValueError` from
`range` (`range() arg 3 must not be zero`), not an
`InvalidConfigurationError`; and `batch_size < 0` does not fail at all —
the pipeline silently returns an empty zero-credit response. -/
theorem embed_pdf_nonpos_batch {Image : Type}
    (f : List Image → Except MidrasError (MidrasResponse Image))
    (images : List Image) (include_images : Bool) :
    embed_pdf f images 0 include_images = .error .rangeError ∧
    ∀ b : Int, b < 0 →
      embed_pdf f images b include_images =
        .ok ⟨0, [], if include_images then some images else none⟩ := by
  constructor
  · rw [embed_pdf, if_pos rfl]
  · intro b hb
    rw [embed_pdf, if_neg (by omega), if_pos hb]

/-- Claim C2 counterexample: a 4xx (here 404) response whose body deserializes is
accepted by `validate_response` with no error at all — it is not mapped to
a `RequestRejectedError` (no such mapping exists in the code). -/
theorem validate_response_404_no_error :
    validate_response (⟨404, "not found", ⟨some 0, some [], none⟩⟩ : HttpResponse Nat)
      = .ok ⟨0, [], none⟩ := rfl

/-- Claim C2 amended: response validation exists only in the async facade's
`validate_response`: a status ≥ 500 raises an error carrying the raw
response body text (`ValueError(response.text)`); every other status —
including 4xx — goes through deserialization, which fails exactly when a
required field (`credits_spent` or `embeddings`) is absent or malformed and
otherwise succeeds; the sync facade performs no validation at all and
returns the raw parsed body. -/
theorem validate_response_behavior {Image : Type} (r : HttpResponse Image) :
    (500 ≤ r.status → validate_response r = .error (.valueError r.text)) ∧
    (r.status < 500 →
      (r.body.credits_spent = none ∨ r.body.embeddings = none) →
      validate_response r = .error .validationError) ∧
    (r.status < 500 → ∀ c es, r.body.credits_spent = some c →
      r.body.embeddings = some es → 0 ≤ c →
      validate_response r = .ok ⟨c.toNat, es, r.body.images⟩) ∧
    (∀ post : Post Image, ∀ key enc imgs mode,
      Midras.embed_images post key enc imgs mode =
        (post "/embed/images" ⟨key, mode, some (imgs.map enc), none⟩).body) := by
  refine ⟨?_, ?_, ?_, fun _ _ _ _ _ => rfl⟩
  · intro h
    rw [validate_response, if_pos h]
  · intro h hmiss
    rw [validate_response, if_neg (by omega)]
    rcases hmiss with hm | hm <;>
      cases hcs : r.body.credits_spent <;> cases hes : r.body.embeddings <;>
        simp_all [parseMidrasResponse]
  · intro h c es hc hes hpos
    rw [validate_response, if_neg (by omega)]
    simp [parseMidrasResponse, hc, hes, hpos]

/-- Claim C3: the synchronous and asynchronous facades do not behave identically.
On a status-500 transport response, `Midras.embed_images` returns the raw
parsed body with no error (it never validates), while
`AsyncMidras.embed_images` raises `ValueError`. Moreover the text-embedding
operations hit different endpoints — `Midras.embed_queries` posts to
`/embed/queries` while `AsyncMidras.embed_text` posts to `""` — so against
a transport whose answer depends on the endpoint (here: credits equal to
the path length) they return observably different results. -/
theorem sync_async_facades_diverge :
    Midras.embed_images failPost "k" (fun p => toString p) [] "standard"
        = ⟨some 0, some [], none⟩ ∧
    AsyncMidras.embed_images failPost "k" (fun p => toString p) [] "standard"
        = .error (.valueError "server error") ∧
    Midras.embed_queries lenPost "k" ["q"] "standard"
        = ⟨some 14, some [], none⟩ ∧
    AsyncMidras.embed_text lenPost "k" ["q"] "standard" = .ok ⟨0, [], none⟩ :=
  ⟨rfl, rfl, rfl, rfl⟩

/-- Claim C6 counterexample: `embed_images` applied to an empty list does not
return a zero-credit empty response: it issues one request and returns the
service's answer unchanged — here 7 credits and one embedding. -/
theorem embed_images_empty_not_zero :
    AsyncMidras.embed_images
        ((fun _ _ => ⟨200, "", ⟨some 7, some [[[1]]], none⟩⟩) : Post Nat) "k"
        (fun p => toString p) [] "standard"
      = .ok ⟨7, [[[1]]], none⟩ := rfl

/-- Claim C6 amended: `embed_pdf` on a zero-page document returns a zero-credit
response with an empty embeddings sequence and no error, for every nonzero
batch size and every per-chunk operation (no request is issued);
`embed_images([])`, by contrast, does not short-circuit: it issues one
request carrying an empty payload and returns the service's response
(sync: the raw body, async: validated), which is zero-credit and empty only
if the service answers so. -/
theorem embed_empty_inputs {Image : Type}
    (f : List Image → Except MidrasError (MidrasResponse Image))
    (batch_size : Int) (hb : batch_size ≠ 0) (include_images : Bool)
    (post : Post Image) (key : String) (enc : Image → String) (mode : String) :
    embed_pdf f ([] : List Image) batch_size include_images =
      .ok ⟨0, [], if include_images then some [] else none⟩ ∧
    Midras.embed_images post key enc [] mode =
      (post "/embed/images" ⟨key, mode, some [], none⟩).body ∧
    AsyncMidras.embed_images post key enc [] mode =
      validate_response (post "/embed/images" ⟨key, mode, some [], none⟩) := by
  refine ⟨?_, rfl, rfl⟩
  by_cases h2 : batch_size < 0
  · rw [embed_pdf, if_neg hb, if_pos h2]
  · rw [embed_pdf, if_neg hb, if_neg h2, embedChunks_nil]

/-- Claim C9 counterexample: the synchronous `query` never fails with an
`IndexError`, empty embeddings or not — here the service answers an empty
embeddings sequence, yet the failure is the `AttributeError` raised at the
`.embeddings` access on the raw dict, before any `[0]` indexing. -/
theorem sync_query_no_index_error :
    Midras.query constPost "k" searchZero "idx" "hi" 5
        = .error (.attributeError "embeddings") ∧
    (Except.error (MidrasError.attributeError "embeddings") :
        Except MidrasError Nat) ≠ .error .indexError :=
  ⟨rfl, by simp⟩

/-- Claim C9 amended: `AsyncMidras.query_text` takes `embeddings[0]` from
the validated text-embedding response with no emptiness check: when that
response carries an empty `embeddings` sequence it fails with Python's
unguarded `IndexError` — not with any typed error of the spec's taxonomy;
`Midras.query` never reaches the indexing: it fails with the unguarded
`AttributeError` at the `.embeddings` access on the raw dict returned by
`embed_queries`, for every query and every transport answer. -/
theorem query_unguarded_errors {Image β : Type}
    (embedT : List String → Except MidrasError (MidrasResponse Image))
    (search : String → ColBERT → Int → β) (index q : String) (quantity : Int)
    (resp : MidrasResponse Image)
    (ht : embedT [q] = .ok resp) (hr : resp.embeddings = [])
    (post : Post Image) (api_key : String)
    (search2 : String → ColBERT → Int → β) :
    AsyncMidras.query_text embedT search index q quantity
        = .error .indexError ∧
    Midras.query post api_key search2 index q quantity
        = .error (.attributeError "embeddings") := by
  constructor
  · simp [AsyncMidras.query_text, ht, hr]
  · rfl

/-! ## Witnesses: concrete instantiations of the hypothesised theorems -/

/-- Witness for the amended claim C1: 23 pages, `batch_size = 10` — exactly
`⌈23/10⌉ = 3` chunk requests, of sizes 10, 10, 3; the async pipeline
returns the concatenated embeddings, the sync pipeline crashes. -/
theorem embed_pdf_batching_witness :
    ((1 : Int) ≤ 10 ∧
      (∀ c ∈ chunkSlices 9 (List.range 23),
        AsyncMidras.embed_images constPost "k" (fun p => toString p) c
          "standard" = .ok (zeroResp c)) ∧
      List.range 23 ≠ []) ∧
    ((chunkSlices 9 (List.range 23)).flatten = List.range 23 ∧
      (chunkSlices 9 (List.range 23)).length = (23 + 10 - 1) / 10 ∧
      (chunkSlices 9 (List.range 23)).map List.length =
        List.replicate (23 / 10) 10 ++
          (if 23 % 10 = 0 then [] else [23 % 10]) ∧
      AsyncMidras.embed_pdf constPost "k" (fun p => toString p)
          (List.range 23) 10 false =
        .ok ⟨((chunkSlices 9 (List.range 23)).map
                (fun c => (zeroResp c).credits_spent)).sum,
             ((chunkSlices 9 (List.range 23)).map
                (fun c => (zeroResp c).embeddings)).flatten,
             none⟩ ∧
      Midras.embed_pdf constPost "k" (fun p => toString p) (List.range 23)
          10 false = .error (.attributeError "embeddings")) ∧
    (23 + 10 - 1) / 10 = 3 ∧
    List.replicate (23 / 10) 10 ++ (if 23 % 10 = 0 then [] else [23 % 10])
      = [10, 10, 3] := by
  have h := embed_pdf_batching constPost "k" (fun p => toString p) zeroResp
    (List.range 23) 10 (by decide) false (fun c _ => rfl)
  exact ⟨⟨by decide, fun c _ => rfl, by decide⟩,
    ⟨h.1, h.2.1, h.2.2.1, h.2.2.2.1, h.2.2.2.2 (by decide)⟩,
    by decide, by decide⟩

/-- Witness for claim C4 at 23 pages and `batch_size = 10`. -/
theorem embed_pdf_credits_witness :
    (1 : Int) ≤ 10 ∧
    ∃ r, embed_pdf (fun c => .ok (pageResp c)) (List.range 23) 10 false
        = .ok r ∧
      r.credits_spent = ((chunkSlices 9 (List.range 23)).map
          (fun c => (pageResp c).credits_spent)).sum ∧
      0 ≤ r.credits_spent :=
  ⟨by decide, embed_pdf_credits pageResp (List.range 23) 10 (by decide) false⟩

/-- Witness for claim C7: three pages, `batch_size = 2`; the second chunk
`[2]` fails, and the whole `embed_pdf` call fails. -/
theorem embed_pdf_aborts_witness :
    ((1 : Int) ≤ 2 ∧ [2] ∈ chunkSlices 1 [0, 1, 2] ∧
      failSecond [2] = .error (.valueError "chunk failed")) ∧
    ∃ e2, embed_pdf failSecond [0, 1, 2] 2 false = .error e2 := by
  have hm : [2] ∈ chunkSlices 1 [0, 1, 2] := by
    simp [chunkSlices_cons, chunkSlices_nil]
  exact ⟨⟨by decide, hm, rfl⟩,
    embed_pdf_aborts failSecond [0, 1, 2] 2 (by decide) false [2] hm
      (.valueError "chunk failed") rfl⟩

/-- Witness for claim C8: a one-page document embedded with
`include_images = true` carries back the original page; the `images` field
matches `if include_images then some images else none`. -/
theorem embed_pdf_images_field_witness :
    embed_pdf (fun c => .ok (pageResp c)) [5] 10 true
        = .ok ⟨1, [[[5]]], some [5]⟩ ∧
    (⟨1, [[[5]]], some [5]⟩ : MidrasResponse Nat).images
        = if true then some [5] else none := by
  have h : embed_pdf (fun c => .ok (pageResp c)) [5] 10 true
      = .ok ⟨1, [[[5]]], some [5]⟩ := by
    simp [embed_pdf, embedChunks_cons, embedChunks_nil, pageResp]
  exact ⟨h, embed_pdf_images_field _ [5] 10 true _ h⟩

/-- Witness for claim C10: `batch_size = -3` on a two-page document returns
the empty aggregate with the original pages retained, raising nothing. -/
theorem embed_pdf_negative_batch_witness :
    (-3 : Int) < 0 ∧
    embed_pdf (fun c => .ok (pageResp c)) [0, 1] (-3) true
      = .ok ⟨0, [], some [0, 1]⟩ :=
  ⟨by decide,
    embed_pdf_negative_batch (fun c => .ok (pageResp c)) [0, 1] (-3)
      (by decide) true⟩

/-- Witness for the amended claim C5: `batch_size = 0` raises the range
error; `batch_size = -2` silently returns the empty aggregate. -/
theorem embed_pdf_nonpos_batch_witness :
    embed_pdf (fun c => .ok (pageResp c)) [0] 0 false = .error .rangeError ∧
    (-2 : Int) < 0 ∧
    embed_pdf (fun c => .ok (pageResp c)) [0] (-2) false = .ok ⟨0, [], none⟩ :=
  ⟨(embed_pdf_nonpos_batch (fun c => .ok (pageResp c)) [0] false).1,
    by decide,
    (embed_pdf_nonpos_batch (fun c => .ok (pageResp c)) [0] false).2 (-2)
      (by decide)⟩

/-- Witness for the amended claim C2: a 503 raises the error carrying the
body text; a 404 with a missing `credits_spent` field fails deserialization;
a 200 with a well-formed body parses. -/
theorem validate_response_behavior_witness :
    validate_response (⟨503, "boom", ⟨some 1, some [], none⟩⟩ : HttpResponse Nat)
        = .error (.valueError "boom") ∧
    validate_response (⟨404, "missing", ⟨none, some [], none⟩⟩ : HttpResponse Nat)
        = .error .validationError ∧
    validate_response (⟨200, "", ⟨some 2, some [[[3]]], none⟩⟩ : HttpResponse Nat)
        = .ok ⟨2, [[[3]]], none⟩ :=
  ⟨(validate_response_behavior ⟨503, "boom", ⟨some 1, some [], none⟩⟩).1
      (by decide),
   (validate_response_behavior ⟨404, "missing", ⟨none, some [], none⟩⟩).2.1
      (by decide) (Or.inl rfl),
   (validate_response_behavior ⟨200, "", ⟨some 2, some [[[3]]], none⟩⟩).2.2.1
      (by decide) 2 [[[3]]] rfl rfl (by decide)⟩

/-- Witness for the amended claim C6: a zero-page document with
`batch_size = 10` yields the zero-credit empty aggregate; the empty-list
image embeddings post one request to `/embed/images`. -/
theorem embed_empty_inputs_witness :
    (10 : Int) ≠ 0 ∧
    (embed_pdf (fun c => .ok (pageResp c)) ([] : List Nat) 10 false
        = .ok ⟨0, [], none⟩ ∧
      Midras.embed_images constPost "k" (fun p => toString p) [] "standard"
        = (constPost "/embed/images" ⟨"k", "standard", some [], none⟩).body ∧
      AsyncMidras.embed_images constPost "k" (fun p => toString p) [] "standard"
        = validate_response
            (constPost "/embed/images" ⟨"k", "standard", some [], none⟩)) :=
  ⟨by decide,
    embed_empty_inputs (fun c => .ok (pageResp c)) 10 (by decide) false
      constPost "k" (fun p => toString p) "standard"⟩

/-- Witness for the amended claim C9: a validated text-embedding response
with an empty embeddings sequence makes the async `query_text` raise the
index error, while the sync `query` raises the attribute error. -/
theorem query_unguarded_errors_witness :
    (emptyEmbedT ["hi"] = .ok ⟨0, [], none⟩ ∧
      (⟨0, [], none⟩ : MidrasResponse Nat).embeddings = []) ∧
    AsyncMidras.query_text emptyEmbedT searchZero "idx" "hi" 5
        = .error .indexError ∧
    Midras.query constPost "k" searchZero "idx" "hi" 5
        = .error (.attributeError "embeddings") :=
  ⟨⟨rfl, rfl⟩,
    query_unguarded_errors emptyEmbedT searchZero "idx" "hi" 5 ⟨0, [], none⟩
      rfl rfl constPost "k" searchZero⟩

end Midrasai
